import Mathlib

/-!
Verification of the generation-request orchestration layer of the
AVGJ-Studios storyboard asset manager.

The definitions below are a shallow embedding of
`src/services/geminiService.ts` (client gateway, image fan-out, video
poller) and of the generation handler of the `Generator` component
(`src/unnamed/part_000`).  Remote collaborators (the generative-model
SDK calls, the binary download fetch) are passed in as explicit oracle
functions returning `Except String` values: a thrown JS error with
message `m` is modelled as `Except.error m`.  JS string truthiness is
modelled explicitly (`""` is falsy).  The unbounded video polling loop
is modelled with an explicit fuel parameter; theorems supply enough
fuel for the runs they describe.
-/

namespace AVGJ

/-- `ImageGenerationOptions` from `geminiService.ts`: all three fields are
optional in the source (`aspectRatio?`, `resolution?`, `numberOfImages?`). -/
structure ImageGenerationOptions where
  aspectRatio : Option String := none
  resolution : Option String := none
  numberOfImages : Option Nat := none
deriving DecidableEq, Repr

/-- `inlineData` payload of a response/request content part. -/
structure InlineData where
  data : String
  mimeType : String
deriving DecidableEq, Repr

/-- A content part: either a text part or an inline-binary part (both fields
optional, as in the SDK's `Part`). -/
structure Part where
  text : Option String := none
  inlineData : Option InlineData := none
deriving DecidableEq, Repr

/-- `content` of a response candidate; an absent `parts` array is modelled
as `[]` (the source only iterates over it). -/
structure Content where
  parts : List Part := []
deriving DecidableEq, Repr

/-- A response candidate (`content` is optional in the SDK). -/
structure Candidate where
  content : Option Content := none
deriving DecidableEq, Repr

/-- A `generateContent` response: an optional list of candidates (absent is
modelled as `[]`) and the SDK's aggregated `text` accessor used by
`enhancePrompt`. -/
structure GenResponse where
  candidates : List Candidate := []
  text : Option String := none
deriving DecidableEq, Repr

/-- `imageConfig` built by both image operations: always an `aspectRatio`,
and an `imageSize` field only in the high-quality branch. -/
structure ImageConfig where
  aspectRatio : String
  imageSize : Option String := none
deriving DecidableEq, Repr

/-- The request each image-generation call sends: model id, content parts
and the image config. -/
structure ImageRequest where
  model : String
  parts : List Part
  imageConfig : ImageConfig
deriving DecidableEq, Repr

/-- `options?.resolution`. -/
def optResolution (options : Option ImageGenerationOptions) : Option String :=
  options.bind (fun o => o.resolution)

/-- Line 73/129: `options?.resolution === '2K' || options?.resolution === '4K'`. -/
def isHighQuality (options : Option ImageGenerationOptions) : Prop :=
  optResolution options = some "2K" ∨ optResolution options = some "4K"

instance (options : Option ImageGenerationOptions) : Decidable (isHighQuality options) := by
  unfold isHighQuality; infer_instance

/-- Line 74/130: model tier selection. -/
def modelOf (options : Option ImageGenerationOptions) : String :=
  if isHighQuality options then "gemini-3-pro-image-preview" else "gemini-2.5-flash-image"

/-- Line 75/131: `const count = options?.numberOfImages || 1` (`0` is falsy in JS). -/
def effectiveCount (options : Option ImageGenerationOptions) : Nat :=
  match options.bind (fun o => o.numberOfImages) with
  | some n => if n = 0 then 1 else n
  | none => 1

/-- Lines 78-80/134-136: `aspectRatio: options?.aspectRatio || "1:1"`
(an empty string is falsy in JS, hence also defaulted). -/
def aspectRatioOf (options : Option ImageGenerationOptions) : String :=
  match options.bind (fun o => o.aspectRatio) with
  | some a => if a = "" then "1:1" else a
  | none => "1:1"

/-- Lines 82-84/138-140: `if (isHighQuality && options?.resolution)
imageConfig.imageSize = options.resolution` (truthiness check kept). -/
def imageSizeOf (options : Option ImageGenerationOptions) : Option String :=
  if isHighQuality options then
    match optResolution options with
    | some r => if r = "" then none else some r
    | none => none
  else none

/-- Line 88/142: the fixed anti-grid suffix appended to the user prompt. -/
def refinedPromptOf (prompt : String) : String :=
  prompt ++ " . Do not generate a grid or collage. Generate a single high-quality image."

/-- The prefixes stripped by line 148/213:
`img.replace(/^data:image\/(png|jpeg|jpg|webp);base64,/, '')`.
The regex is anchored, so it strips exactly one of these four literal
prefixes when present (alternatives in the regex's order). -/
def dataUriHeads : List String :=
  ["data:image/png;base64,", "data:image/jpeg;base64,", "data:image/jpg;base64,",
   "data:image/webp;base64,"]

/-- Line 148/213: strip the recognised data-URI head, if any — for any
other input (no matching alternative) the regex does not match and
`replace` returns the input unchanged.  Stated on character lists so that
concrete inputs evaluate in the kernel. -/
def cleanBase64 (img : String) : String :=
  match dataUriHeads.find? (fun p => p.toList.isPrefixOf img.toList) with
  | some p => String.mk (img.toList.drop p.toList.length)
  | none => img

/-- `[a-zA-Z0-9]` (ASCII, as in the JS character class). -/
def isMimeHeadChar (c : Char) : Bool :=
  c.isAlpha || c.isDigit

/-- `[a-zA-Z0-9-.+]`: alphanumerics plus the literals `-`, `.`, `+`. -/
def isMimeTailChar (c : Char) : Bool :=
  c.isAlpha || c.isDigit || c == '-' || c == '.' || c == '+'

/-- JS line terminators, which `.` (without the `s` flag) never matches. -/
def isLineTerminator (c : Char) : Bool :=
  c == '\n' || c == '\r' || c == Char.ofNat 0x2028 || c == Char.ofNat 0x2029

/-- One attempt of the mime regex
`data:([a-zA-Z0-9]+\/[a-zA-Z0-9-.+]+).*,.*` at the head of `cs`, returning
capture group 1.  Both `+`-classes exclude `/` resp. `,`, so the greedy
maximal runs are the only viable ones and no backtracking case remains;
`.*,.*` succeeds exactly when a `,` occurs after the second run before any
line terminator. -/
def mimeMatchAt (cs : List Char) : Option String :=
  if ("data:".toList).isPrefixOf cs then
    let rest := cs.drop 5
    let run1 := rest.takeWhile isMimeHeadChar
    match rest.drop run1.length with
    | '/' :: rest2 =>
      if run1.isEmpty then none
      else
        let run2 := rest2.takeWhile isMimeTailChar
        let rest3 := rest2.drop run2.length
        if run2.isEmpty then none
        else if (rest3.takeWhile (fun c => !isLineTerminator c)).contains ',' then
          some (String.mk (run1 ++ '/' :: run2))
        else none
    | _ => none
  else none

/-- Leftmost match of the mime regex (JS `String.prototype.match`). -/
def mimeScan : List Char → Option String
  | [] => none
  | c :: cs =>
    match mimeMatchAt (c :: cs) with
    | some m => some m
    | none => mimeScan cs

/-- Line 149/214: `img.match(/data:([a-zA-Z0-9]+\/[a-zA-Z0-9-.+]+).*,.*/)?.[1]
|| 'image/png'` (the `||` default kept with JS falsiness). -/
def extractMime (img : String) : String :=
  match mimeScan img.toList with
  | some m => if m = "" then "image/png" else m
  | none => "image/png"

/-- Lines 73-103: the request `generateImageFromText` sends on every
fan-out call. -/
def buildTextRequest (prompt : String) (options : Option ImageGenerationOptions) :
    ImageRequest :=
  { model := modelOf options,
    parts := [{ text := some (refinedPromptOf prompt) }],
    imageConfig := { aspectRatio := aspectRatioOf options, imageSize := imageSizeOf options } }

/-- Lines 147-156: the inline-binary part pushed for one reference image —
data with the recognised data-URI head stripped, mime recovered from the
same string. -/
def referencePart (img : String) : Part :=
  { inlineData := some { data := cleanBase64 img, mimeType := extractMime img } }

/-- Lines 129-172: the request `generateImageFromImage` sends on every
fan-out call: one inline-binary part per reference image (lines 144-156,
in input order), then the text part (line 159). -/
def buildImageRequest (referenceImages : List String) (prompt : String)
    (options : Option ImageGenerationOptions) : ImageRequest :=
  { model := modelOf options,
    parts := referenceImages.map referencePart ++ [{ text := some (refinedPromptOf prompt) }],
    imageConfig := { aspectRatio := aspectRatioOf options, imageSize := imageSizeOf options } }

/-- Line 111: `part.inlineData && part.inlineData.data` (the data string
must be truthy, i.e. nonempty). -/
def truthyInline (p : Part) : Bool :=
  match p.inlineData with
  | some d => d.data != ""
  | none => false

/-- Lines 108-117/177-186, inner loop: the data of the first part of the
first candidate that carries truthy inline data (the `break` takes only
the first such part). -/
def firstInlineData (response : GenResponse) : Option String :=
  match response.candidates with
  | [] => none
  | cand :: _ =>
    match cand.content with
    | some content =>
      match content.parts.find? truthyInline with
      | some p => p.inlineData.map (fun d => d.data)
      | none => none
    | none => none

/-- Line 112: the URL pushed for one response, when it yields any. -/
def firstImageUrl (response : GenResponse) : Option String :=
  (firstInlineData response).map (fun data => "data:image/png;base64," ++ data)

/-- `Promise.all` over the array of fan-out calls indexed by position:
rejects if any call rejects, otherwise resolves to the results in
submission order (the join preserves the index-to-slot mapping
regardless of completion order). -/
def collectAll {β : Type} (call : Nat → Except String β) : List Nat → Except String (List β)
  | [] => Except.ok []
  | i :: rest =>
    match call i with
    | Except.error e => Except.error e
    | Except.ok x =>
      match collectAll call rest with
      | Except.error e => Except.error e
      | Except.ok xs => Except.ok (x :: xs)

/-- Lines 70-124: `generateImageFromText`.  The SDK call
`ai.models.generateContent` is the oracle `generateContent`, given the
request and the submission index of the fan-out call. -/
def generateImageFromText (prompt : String) (options : Option ImageGenerationOptions)
    (generateContent : ImageRequest → Nat → Except String GenResponse) :
    Except String (List String) :=
  match collectAll (fun i => generateContent (buildTextRequest prompt options) i)
      (List.range (effectiveCount options)) with
  | Except.error e => Except.error e
  | Except.ok responses =>
    let imageUrls := responses.filterMap firstImageUrl
    if imageUrls = [] then Except.error "No image data found in responses"
    else Except.ok imageUrls

/-- Lines 126-193: `generateImageFromImage` (same fan-out and reduction,
with the reference-image parts in the request). -/
def generateImageFromImage (referenceImages : List String) (prompt : String)
    (options : Option ImageGenerationOptions)
    (generateContent : ImageRequest → Nat → Except String GenResponse) :
    Except String (List String) :=
  match collectAll
      (fun i => generateContent (buildImageRequest referenceImages prompt options) i)
      (List.range (effectiveCount options)) with
  | Except.error e => Except.error e
  | Except.ok responses =>
    let imageUrls := responses.filterMap firstImageUrl
    if imageUrls = [] then Except.error "No image data found in responses"
    else Except.ok imageUrls

/-- `enhancePrompt`'s request shape: a model id and a single instructions
string (`contents: instructions`). -/
structure TextGenRequest where
  model : String
  contents : String
deriving DecidableEq, Repr

/-- The `type` argument of `enhancePrompt` (`'image' | 'video'`). -/
inductive PromptKind
  | image
  | video
deriving DecidableEq, Repr

/-- Lines 34-61: the templated instruction string, with the user's raw
prompt interpolated at the end. -/
def enhanceInstructions (originalPrompt : String) (type : PromptKind) : String :=
  match type with
  | PromptKind.image =>
    String.intercalate "\n"
      ["You are an expert Director of Photography (DP) creating a shot list for a high-budget commercial. ",
       "      Rewrite the following prompt to be a highly detailed, photorealistic image description. ",
       "      ",
       "      CRITICAL: You MUST include specific technical details to achieve a \"film look\", such as:",
       "      - Camera Bodies: e.g., Arri Alexa LF, RED V-RAPTOR, Sony Venice.",
       "      - Lenses: e.g., Panavision C-Series Anamorphic, Canon K35, 85mm Prime.",
       "      - Filters/Effects: e.g., Tiffen Black Pro-Mist 1/4, Cinebloom, Halation, Film Grain.",
       "      - Lighting: e.g., Volumetric fog, Rembrandt lighting, Golden Hour, Chiaroscuro.",
       "      ",
       "      Keep it under 70 words. Focus purely on the visual aesthetic and composition.",
       "      ",
       "      Original prompt: \"" ++ originalPrompt ++ "\""]
  | PromptKind.video =>
    String.intercalate "\n"
      ["You are an expert Film Director and Cinematographer. ",
       "      Rewrite the following prompt to be a detailed scene description for an AI Video Generator (Veo).",
       "      ",
       "      CRITICAL: Unlike an image, a video prompt MUST describe MOTION.",
       "      1. CAMERA MOVEMENT: Explicitly describe the camera move (e.g., Slow Dolly In, Truck Left, Low Angle Tracking Shot, Aerial Drone Flyover, Handheld chaos).",
       "      2. SUBJECT ACTION: Describe exactly how the subject moves (e.g., turning head to camera, running towards lens, rain falling).",
       "      3. LOOK: Include cinematic lens details (e.g., Anamorphic flare, Shallow depth of field) but prioritize motion.",
       "      ",
       "      Keep it under 70 words.",
       "      ",
       "      Original prompt: \"" ++ originalPrompt ++ "\""]

/-- Lines 63-66: the text-generation request `enhancePrompt` issues. -/
def enhanceRequest (originalPrompt : String) (type : PromptKind) : TextGenRequest :=
  { model := "gemini-2.5-flash", contents := enhanceInstructions originalPrompt type }

/-- JS whitespace for `String.prototype.trim` (space, tab, line
terminators, vertical tab, form feed, NBSP, BOM; exotic Unicode spaces are
not relevant to these claims). -/
def jsWhitespace (c : Char) : Bool :=
  c == ' ' || c == '\t' || c == '\n' || c == '\r' ||
  c == Char.ofNat 0x0b || c == Char.ofNat 0x0c ||
  c == Char.ofNat 0xa0 || c == Char.ofNat 0xfeff ||
  c == Char.ofNat 0x2028 || c == Char.ofNat 0x2029

/-- JS `trim()`: drop whitespace from both ends. -/
def trimString (s : String) : String :=
  String.mk (((s.toList.dropWhile jsWhitespace).reverse.dropWhile jsWhitespace).reverse)

/-- Lines 31-68: `enhancePrompt`.  Line 67 is
`response.text?.trim() || originalPrompt`: an absent text, and a text
whose trim is the empty (falsy) string, both fall back to the original
prompt; a failed call propagates its error. -/
def enhancePrompt (originalPrompt : String) (type : PromptKind)
    (generateContent : TextGenRequest → Except String GenResponse) :
    Except String String :=
  match generateContent (enhanceRequest originalPrompt type) with
  | Except.error e => Except.error e
  | Except.ok response =>
    Except.ok (match response.text with
      | some t => if trimString t = "" then originalPrompt else trimString t
      | none => originalPrompt)

/-- `config` of the video payload (lines 199-203, fixed values). -/
structure VideoConfig where
  numberOfVideos : Nat
  resolution : String
  aspectRatio : String
deriving DecidableEq, Repr

/-- The optional seed image attached to the video payload (lines 216-219). -/
structure VideoImage where
  imageBytes : String
  mimeType : String
deriving DecidableEq, Repr

/-- The payload submitted to `ai.models.generateVideos` (lines 205-220). -/
structure VideoPayload where
  model : String
  prompt : String
  config : VideoConfig
  image : Option VideoImage := none
deriving DecidableEq, Repr

/-- `video` entry of a generated video (optional `uri`). -/
structure VideoRef where
  uri : Option String := none
deriving DecidableEq, Repr

/-- One element of `response.generatedVideos`. -/
structure GeneratedVideo where
  video : Option VideoRef := none
deriving DecidableEq, Repr

/-- The `response` payload of a completed video operation; an absent
`generatedVideos` array is modelled as `[]`. -/
structure VideoOpResponse where
  generatedVideos : List GeneratedVideo := []
deriving DecidableEq, Repr

/-- The operation handle returned by submission and by each status
re-fetch: a `done` flag and, once done, the result payload. -/
structure VideoOperation where
  done : Bool
  response : Option VideoOpResponse := none
deriving DecidableEq, Repr

/-- The result of the binary download fetch (`fetch`): HTTP `ok` flag and
the body bytes (modelled as a string). -/
structure DownloadResponse where
  ok : Bool
  blob : String
deriving DecidableEq, Repr

deriving instance DecidableEq for Except

/-- Instrumented outcome of one `generateVideo` run: the returned value or
thrown error, the number of delayed status re-fetches the poll loop
performed, and the URLs handed to the binary download fetch, in order. -/
structure VideoRun where
  result : Except String String
  statusFetches : Nat
  downloadFetches : List String
deriving DecidableEq, Repr

/-- Line 230: `operation.response?.generatedVideos?.[0]?.video?.uri`. -/
def operationUri (op : VideoOperation) : Option String :=
  (op.response.bind (fun r => r.generatedVideos.head?)).bind
    (fun gv => gv.video.bind (fun v => v.uri))

/-- Lines 199-220: the submission payload (fixed config; the seed image,
when present, stripped and mime-tagged by the same regexes as the image
path, lines 213-214). -/
def buildVideoPayload (prompt : String) (inputImage : Option String) : VideoPayload :=
  { model := "veo-3.1-fast-generate-preview",
    prompt := prompt,
    config := { numberOfVideos := 1, resolution := "720p", aspectRatio := "16:9" },
    image := inputImage.map (fun img =>
      { imageBytes := cleanBase64 img, mimeType := extractMime img }) }

/-- Lines 225-228: the polling loop.  `getVideosOperation i` is the result
of the `i`-th delayed status re-fetch (each preceded by the fixed
5-second sleep, which has no observable effect here).  The source loop is
unbounded; `fuel` bounds it only so the definition is total, and every
theorem supplies fuel beyond what its run consumes.  Returns the final
operation (or the propagated error) together with the number of re-fetches
performed. -/
def pollOperation (getVideosOperation : Nat → Except String VideoOperation) :
    Nat → Nat → VideoOperation → Except String VideoOperation × Nat
  | 0, i, op =>
    if op.done then (Except.ok op, i)
    else (Except.error "polling did not terminate", i)
  | f + 1, i, op =>
    if op.done then (Except.ok op, i)
    else
      match getVideosOperation i with
      | Except.error e => (Except.error e, i + 1)
      | Except.ok next => pollOperation getVideosOperation f (i + 1) next

/-- Lines 195-244: `generateVideo`.  Oracles: `generateVideos` (job
submission), `getVideosOperation` (status re-fetch by index), `fetchUrl`
(binary download).  Line 232's `if (!downloadLink)` treats both an absent
and an empty locator as missing; line 237 fetches
`downloadLink + "&key=" + apiKey`; `URL.createObjectURL` is modelled as
tagging the body bytes. -/
def generateVideo (apiKey : String) (prompt : String) (inputImage : Option String)
    (generateVideos : VideoPayload → Except String VideoOperation)
    (getVideosOperation : Nat → Except String VideoOperation)
    (fetchUrl : String → Except String DownloadResponse)
    (fuel : Nat) : VideoRun :=
  match generateVideos (buildVideoPayload prompt inputImage) with
  | Except.error e => { result := Except.error e, statusFetches := 0, downloadFetches := [] }
  | Except.ok operation =>
    match pollOperation getVideosOperation fuel 0 operation with
    | (Except.error e, n) =>
      { result := Except.error e, statusFetches := n, downloadFetches := [] }
    | (Except.ok opDone, n) =>
      match operationUri opDone with
      | none =>
        { result := Except.error "Video generation failed or no URI returned.",
          statusFetches := n, downloadFetches := [] }
      | some downloadLink =>
        if downloadLink = "" then
          { result := Except.error "Video generation failed or no URI returned.",
            statusFetches := n, downloadFetches := [] }
        else
          match fetchUrl (downloadLink ++ "&key=" ++ apiKey) with
          | Except.error e =>
            { result := Except.error e, statusFetches := n,
              downloadFetches := [downloadLink ++ "&key=" ++ apiKey] }
          | Except.ok videoResponse =>
            if videoResponse.ok then
              { result := Except.ok ("blob:" ++ videoResponse.blob), statusFetches := n,
                downloadFetches := [downloadLink ++ "&key=" ++ apiKey] }
            else
              { result := Except.error "Failed to download generated video.",
                statusFetches := n,
                downloadFetches := [downloadLink ++ "&key=" ++ apiKey] }

/-- `GenerationType` from `types.ts`. -/
inductive GenerationType
  | TEXT_TO_IMAGE
  | IMAGE_TO_IMAGE
  | TEXT_TO_VIDEO
deriving DecidableEq, Repr

/-- The three service calls the generation handler can dispatch, as an
injected collaborator (they are the remote-call boundary of the
controller). -/
structure GenServices where
  textToImage : String → Option ImageGenerationOptions → Except String (List String)
  imageToImage : List String → String → Option ImageGenerationOptions →
    Except String (List String)
  textToVideo : String → Option String → Except String String

/-- The component state of `Generator` read or written by `handleGenerate`
(other UI state of the component is not touched by the handler). -/
structure GenState where
  prompt : String
  isGenerating : Bool
  resultUrls : List String
  selectedPreviewIndex : Nat
  error : Option String
  aspectRatio : String
  resolution : String
  numberOfImages : Nat
  referenceImages : List String
  hasPaidKey : Bool
  activeTab : GenerationType
deriving DecidableEq, Repr

/-- The options record `handleGenerate` passes to the image services
(lines 135 and 138: `{ aspectRatio, resolution, numberOfImages }`). -/
def controllerOptions (s : GenState) : Option ImageGenerationOptions :=
  some { aspectRatio := some s.aspectRatio, resolution := some s.resolution,
         numberOfImages := some s.numberOfImages }

/-- Lines 133-144: the body of the `try` block.  Returns the outcome and
whether a network call was dispatched (the empty-reference-images guard
of line 137 throws before any call). -/
def tryGenerate (svc : GenServices) (s : GenState) : Except String (List String) × Bool :=
  match s.activeTab with
  | GenerationType.TEXT_TO_IMAGE =>
    (svc.textToImage s.prompt (controllerOptions s), true)
  | GenerationType.IMAGE_TO_IMAGE =>
    if s.referenceImages = [] then
      (Except.error "At least one reference image is required", false)
    else
      (svc.imageToImage s.referenceImages s.prompt (controllerOptions s), true)
  | GenerationType.TEXT_TO_VIDEO =>
    (match svc.textToVideo s.prompt s.referenceImages.head? with
     | Except.ok url => Except.ok [url]
     | Except.error e => Except.error e, true)

/-- Does `s` contain `pat` as a substring (JS `String.prototype.includes`)? -/
def containsSubstr (s pat : String) : Bool :=
  (List.range (s.length + 1)).any (fun i => pat.toList.isPrefixOf (s.toList.drop i))

/-- Lines 119-154: `handleGenerate`.  Returns the component state after the
handler finishes together with a flag recording whether any service call
was dispatched.  The sequential React `set*` calls of one run are modelled
as their net effect on the final state; reads use the values the handler
closed over.  Every branch clears `error`/`resultUrls`/the preview index
(lines 122-124) and ends with `isGenerating = false` (the `finally`).
Line 127 is the pre-dispatch gate check; lines 146-150 are the catch block
(`err.message || "Generation failed"`, and the
`"Requested entity was not found"` entitlement sniff guarded by JS
truthiness of the message). -/
def handleGenerate (svc : GenServices) (s : GenState) : GenState × Bool :=
  if s.prompt = "" then (s, false)
  else if (s.activeTab = GenerationType.TEXT_TO_VIDEO ∨ s.resolution = "2K" ∨
      s.resolution = "4K") ∧ s.hasPaidKey = false then
    ({ s with isGenerating := false, error := none, resultUrls := [],
              selectedPreviewIndex := 0 }, false)
  else
    match tryGenerate svc s with
    | (Except.ok urls, called) =>
      ({ s with isGenerating := false, error := none, resultUrls := urls,
                selectedPreviewIndex := 0 }, called)
    | (Except.error m, called) =>
      ({ s with isGenerating := false,
                error := some (if m = "" then "Generation failed" else m),
                resultUrls := [], selectedPreviewIndex := 0,
                hasPaidKey :=
                  if m ≠ "" ∧ containsSubstr m "Requested entity was not found" = true
                  then false else s.hasPaidKey }, called)

/-! ## Helper lemmas -/

/-- The fan-out `count` is always at least 1 (`|| 1` with `0` falsy). -/
theorem effectiveCount_pos (options : Option ImageGenerationOptions) :
    1 ≤ effectiveCount options := by
  unfold effectiveCount
  cases options.bind (fun o => o.numberOfImages) with
  | none => simp
  | some n =>
    by_cases hn : n = 0
    · simp [hn]
    · simp [hn]
      omega

/-- If every indexed call succeeds, the join succeeds with the results in
index order. -/
theorem collectAll_ok {β : Type} (call : Nat → Except String β) (g : Nat → β)
    (h : ∀ i, call i = Except.ok (g i)) :
    ∀ l : List Nat, collectAll call l = Except.ok (l.map g)
  | [] => rfl
  | i :: rest => by
    simp [collectAll, h i, collectAll_ok call g h rest]

/-- `filterMap` over a pointwise-`some` composition is a `map`. -/
theorem filterMap_map_eq_map {β γ : Type} (f : β → Option γ) (g : Nat → β) (u : Nat → γ)
    (h : ∀ i, f (g i) = some (u i)) :
    ∀ l : List Nat, (l.map g).filterMap f = l.map u
  | [] => rfl
  | i :: rest => by
    simp [List.filterMap_cons, h i, filterMap_map_eq_map f g u h rest]

/-- `filterMap` over a pointwise-`none` composition is empty. -/
theorem filterMap_map_eq_nil {β γ : Type} (f : β → Option γ) (g : Nat → β)
    (h : ∀ i, f (g i) = none) :
    ∀ l : List Nat, (l.map g).filterMap f = []
  | [] => rfl
  | i :: rest => by
    simp [List.filterMap_cons, h i, filterMap_map_eq_nil f g h rest]

/-- A fully successful text fan-out resolves to the per-call URLs in
submission order. -/
theorem generateImageFromText_ok (prompt : String) (options : Option ImageGenerationOptions)
    (generateContent : ImageRequest → Nat → Except String GenResponse)
    (r : Nat → GenResponse) (d : Nat → String)
    (hok : ∀ req i, generateContent req i = Except.ok (r i))
    (hd : ∀ i, firstInlineData (r i) = some (d i)) :
    generateImageFromText prompt options generateContent =
      Except.ok ((List.range (effectiveCount options)).map
        (fun i => "data:image/png;base64," ++ d i)) := by
  have hurl : ∀ i, firstImageUrl (r i) = some ("data:image/png;base64," ++ d i) := by
    intro i; simp [firstImageUrl, hd i]
  have hne : List.range (effectiveCount options) ≠ [] := by
    have := effectiveCount_pos options
    intro hcontra
    rw [List.range_eq_nil] at hcontra
    omega
  unfold generateImageFromText
  simp only [collectAll_ok _ r (fun i => hok _ i)]
  simp only [filterMap_map_eq_map firstImageUrl r _ hurl]
  rw [if_neg (by simpa [List.map_eq_nil_iff] using hne)]

/-- A fully successful image-to-image fan-out resolves to the per-call URLs
in submission order. -/
theorem generateImageFromImage_ok (referenceImages : List String) (prompt : String)
    (options : Option ImageGenerationOptions)
    (generateContent : ImageRequest → Nat → Except String GenResponse)
    (r : Nat → GenResponse) (d : Nat → String)
    (hok : ∀ req i, generateContent req i = Except.ok (r i))
    (hd : ∀ i, firstInlineData (r i) = some (d i)) :
    generateImageFromImage referenceImages prompt options generateContent =
      Except.ok ((List.range (effectiveCount options)).map
        (fun i => "data:image/png;base64," ++ d i)) := by
  have hurl : ∀ i, firstImageUrl (r i) = some ("data:image/png;base64," ++ d i) := by
    intro i; simp [firstImageUrl, hd i]
  have hne : List.range (effectiveCount options) ≠ [] := by
    have := effectiveCount_pos options
    intro hcontra
    rw [List.range_eq_nil] at hcontra
    omega
  unfold generateImageFromImage
  simp only [collectAll_ok _ r (fun i => hok _ i)]
  simp only [filterMap_map_eq_map firstImageUrl r _ hurl]
  rw [if_neg (by simpa [List.map_eq_nil_iff] using hne)]

/-- A fan-out whose calls all succeed with no usable binary part fails with
the empty-result error. -/
theorem generateImageFromText_empty (prompt : String)
    (options : Option ImageGenerationOptions)
    (generateContent : ImageRequest → Nat → Except String GenResponse)
    (r : Nat → GenResponse)
    (hok : ∀ req i, generateContent req i = Except.ok (r i))
    (hnone : ∀ i, firstInlineData (r i) = none) :
    generateImageFromText prompt options generateContent =
      Except.error "No image data found in responses" := by
  have hurl : ∀ i, firstImageUrl (r i) = none := by
    intro i; simp [firstImageUrl, hnone i]
  unfold generateImageFromText
  simp only [collectAll_ok _ r (fun i => hok _ i)]
  simp only [filterMap_map_eq_nil firstImageUrl r hurl]
  simp

/-- Image-to-image variant of `generateImageFromText_empty`. -/
theorem generateImageFromImage_empty (referenceImages : List String) (prompt : String)
    (options : Option ImageGenerationOptions)
    (generateContent : ImageRequest → Nat → Except String GenResponse)
    (r : Nat → GenResponse)
    (hok : ∀ req i, generateContent req i = Except.ok (r i))
    (hnone : ∀ i, firstInlineData (r i) = none) :
    generateImageFromImage referenceImages prompt options generateContent =
      Except.error "No image data found in responses" := by
  have hurl : ∀ i, firstImageUrl (r i) = none := by
    intro i; simp [firstImageUrl, hnone i]
  unfold generateImageFromImage
  simp only [collectAll_ok _ r (fun i => hok _ i)]
  simp only [filterMap_map_eq_nil firstImageUrl r hurl]
  simp

/-- A string whose character list starts with `p`'s is `p` followed by the
rest. -/
theorem string_prefix_strip (p img : String)
    (h : p.toList.isPrefixOf img.toList = true) :
    p ++ String.mk (img.toList.drop p.toList.length) = img := by
  cases p with
  | mk pl =>
    cases img with
    | mk il =>
      rcases List.isPrefixOf_iff_prefix.mp h with ⟨t, ht⟩
      have ht2 : pl ++ t = il := ht
      have hd : il.drop pl.length = t := by
        rw [← ht2]
        exact List.drop_left pl t
      show String.mk (pl ++ il.drop pl.length) = String.mk il
      rw [hd, ht2]

/-- No recognised data-URI head is a proper prefix of another, so at most
one of them matches a given input. -/
theorem dataUriHeads_unique (p q img : String)
    (hp : p ∈ dataUriHeads) (hq : q ∈ dataUriHeads)
    (hpp : p.toList.isPrefixOf img.toList = true)
    (hqp : q.toList.isPrefixOf img.toList = true) : p = q := by
  have hfin : ∀ a ∈ dataUriHeads, ∀ b ∈ dataUriHeads,
      a.toList.isPrefixOf b.toList = true → a = b := by decide
  have h1 : p.toList <+: img.toList := List.isPrefixOf_iff_prefix.mp hpp
  have h2 : q.toList <+: img.toList := List.isPrefixOf_iff_prefix.mp hqp
  rcases List.prefix_or_prefix_of_prefix h1 h2 with h | h
  · exact hfin p hp q hq (List.isPrefixOf_iff_prefix.mpr h)
  · exact (hfin q hq p hp (List.isPrefixOf_iff_prefix.mpr h)).symm

/-! ## Claim theorems -/

/-- A stub response carrying one usable inline binary part, for witnesses. -/
def okStubResponse : GenResponse :=
  { candidates := [{ content := some { parts := [{ inlineData := some { data := "AAA", mimeType := "image/png" } }] } }] }

/-- Claim C1: for every count in 1..4, if every one of the count parallel
generation calls made by `generateImageFromText` (or
`generateImageFromImage`) succeeds and its response contains at least one
inline binary part (with truthy data) in its first candidate, then the
function returns a list of exactly count result URLs, ordered by
submission index — the i-th URL is built from the i-th issued call's
response — not by completion order. -/
theorem fanout_count_urls_in_submission_order
    (prompt : String) (options : Option ImageGenerationOptions)
    (generateContent : ImageRequest → Nat → Except String GenResponse)
    (r : Nat → GenResponse) (d : Nat → String)
    (_h1 : 1 ≤ effectiveCount options) (_h4 : effectiveCount options ≤ 4)
    (hok : ∀ req i, generateContent req i = Except.ok (r i))
    (hd : ∀ i, firstInlineData (r i) = some (d i)) :
    generateImageFromText prompt options generateContent =
      Except.ok ((List.range (effectiveCount options)).map
        (fun i => "data:image/png;base64," ++ d i)) ∧
    (∀ refs, generateImageFromImage refs prompt options generateContent =
      Except.ok ((List.range (effectiveCount options)).map
        (fun i => "data:image/png;base64," ++ d i))) ∧
    ((List.range (effectiveCount options)).map
      (fun i => "data:image/png;base64," ++ d i)).length = effectiveCount options := by
  refine ⟨?_, fun refs => ?_, by simp⟩
  · exact generateImageFromText_ok prompt options generateContent r d hok hd
  · exact generateImageFromImage_ok refs prompt options generateContent r d hok hd

/-- A concrete run of claim C1's theorem: three successful calls yield the
three URLs in submission order. -/
theorem fanout_count_urls_in_submission_order_witness :
    generateImageFromText "p"
      (some { aspectRatio := none, resolution := none, numberOfImages := some 3 })
      (fun _ _ => Except.ok
        okStubResponse) =
    Except.ok ["data:image/png;base64,AAA", "data:image/png;base64,AAA",
               "data:image/png;base64,AAA"] := by
  have h := fanout_count_urls_in_submission_order "p"
    (some { aspectRatio := none, resolution := none, numberOfImages := some 3 })
    (fun _ _ => Except.ok
      okStubResponse)
    (fun _ =>
      okStubResponse)
    (fun _ => "AAA")
    (by decide) (by decide) (fun _ _ => rfl) (fun _ => rfl)
  rw [h.1]
  rfl

/-- Claim C2: for every count, if every fan-out call completes without
throwing but none of the responses contains a usable inline binary part,
then `generateImageFromText` (and `generateImageFromImage`) fails with the
empty-result error rather than returning an empty list. -/
theorem fanout_all_empty_fails
    (prompt : String) (options : Option ImageGenerationOptions)
    (generateContent : ImageRequest → Nat → Except String GenResponse)
    (r : Nat → GenResponse)
    (hok : ∀ req i, generateContent req i = Except.ok (r i))
    (hnone : ∀ i, firstInlineData (r i) = none) :
    generateImageFromText prompt options generateContent =
      Except.error "No image data found in responses" ∧
    ∀ refs, generateImageFromImage refs prompt options generateContent =
      Except.error "No image data found in responses" := by
  refine ⟨?_, fun refs => ?_⟩
  · exact generateImageFromText_empty prompt options generateContent r hok hnone
  · exact generateImageFromImage_empty refs prompt options generateContent r hok hnone

/-- A concrete run of claim C2's theorem: four calls all succeeding with no
binary parts produce the empty-result error. -/
theorem fanout_all_empty_fails_witness :
    generateImageFromText "p"
      (some { aspectRatio := none, resolution := none, numberOfImages := some 4 })
      (fun _ _ => Except.ok { candidates := [] }) =
    Except.error "No image data found in responses" ∧
    generateImageFromImage ["data:image/png;base64,AAA"] "p"
      (some { aspectRatio := none, resolution := none, numberOfImages := some 4 })
      (fun _ _ => Except.ok { candidates := [] }) =
    Except.error "No image data found in responses" := by
  have h := fanout_all_empty_fails "p"
    (some { aspectRatio := none, resolution := none, numberOfImages := some 4 })
    (fun _ _ => Except.ok { candidates := [] })
    (fun _ => { candidates := [] })
    (fun _ _ => rfl) (fun _ => rfl)
  exact ⟨h.1, h.2 ["data:image/png;base64,AAA"]⟩

/-- Claim C7: model selection in both image operations is a pure function
of the resolution option alone — for every prompt, reference-image list,
aspect ratio and count, resolution 2K or 4K selects the high-fidelity
model and any other resolution (including absent) selects the fast
model. -/
theorem model_selection_pure_in_resolution
    (prompt : String) (refs : List String) (options : Option ImageGenerationOptions) :
    ((optResolution options = some "2K" ∨ optResolution options = some "4K") →
      (buildTextRequest prompt options).model = "gemini-3-pro-image-preview" ∧
      (buildImageRequest refs prompt options).model = "gemini-3-pro-image-preview") ∧
    (¬(optResolution options = some "2K" ∨ optResolution options = some "4K") →
      (buildTextRequest prompt options).model = "gemini-2.5-flash-image" ∧
      (buildImageRequest refs prompt options).model = "gemini-2.5-flash-image") := by
  constructor
  · intro h
    rcases h with h | h
    · constructor <;> simp [buildTextRequest, buildImageRequest, modelOf, isHighQuality, h]
    · constructor <;> simp [buildTextRequest, buildImageRequest, modelOf, isHighQuality, h]
  · intro h
    constructor <;> simp [buildTextRequest, buildImageRequest, modelOf, isHighQuality, h]

/-- A concrete run of claim C7's theorem: a 2K request routes to the
high-fidelity model, a 1K request to the fast model. -/
theorem model_selection_pure_in_resolution_witness :
    (buildTextRequest "p"
      (some { aspectRatio := none, resolution := some "2K", numberOfImages := none })).model =
      "gemini-3-pro-image-preview" ∧
    (buildImageRequest [] "q"
      (some { aspectRatio := none, resolution := some "1K", numberOfImages := none })).model =
      "gemini-2.5-flash-image" := by
  constructor
  · exact (model_selection_pure_in_resolution "p" []
      (some { aspectRatio := none, resolution := some "2K", numberOfImages := none })).1
      (Or.inl rfl) |>.1
  · exact (model_selection_pure_in_resolution "q" []
      (some { aspectRatio := none, resolution := some "1K", numberOfImages := none })).2
      (by decide) |>.2

/-- Claim C10: when `numberOfImages` is absent or 0 the fan-out issues
exactly one call (so a fully successful run returns a one-element list),
the request config contains `imageSize` iff resolution is 2K or 4K, and
`aspectRatio` defaults to "1:1" when not supplied — in both image
operations. -/
theorem default_count_and_config
    (prompt : String) (refs : List String) (options : Option ImageGenerationOptions)
    (generateContent : ImageRequest → Nat → Except String GenResponse)
    (r : Nat → GenResponse) (d : Nat → String)
    (hok : ∀ req i, generateContent req i = Except.ok (r i))
    (hd : ∀ i, firstInlineData (r i) = some (d i))
    (hcount : options.bind (fun o => o.numberOfImages) = none ∨
              options.bind (fun o => o.numberOfImages) = some 0) :
    effectiveCount options = 1 ∧
    generateImageFromText prompt options generateContent =
      Except.ok ["data:image/png;base64," ++ d 0] ∧
    generateImageFromImage refs prompt options generateContent =
      Except.ok ["data:image/png;base64," ++ d 0] ∧
    ((buildTextRequest prompt options).imageConfig.imageSize.isSome ↔
      (optResolution options = some "2K" ∨ optResolution options = some "4K")) ∧
    ((buildImageRequest refs prompt options).imageConfig.imageSize.isSome ↔
      (optResolution options = some "2K" ∨ optResolution options = some "4K")) ∧
    (options.bind (fun o => o.aspectRatio) = none →
      (buildTextRequest prompt options).imageConfig.aspectRatio = "1:1" ∧
      (buildImageRequest refs prompt options).imageConfig.aspectRatio = "1:1") := by
  have hc1 : effectiveCount options = 1 := by
    unfold effectiveCount
    rcases hcount with h | h <;> rw [h]
    simp
  have hsize : (imageSizeOf options).isSome ↔
      (optResolution options = some "2K" ∨ optResolution options = some "4K") := by
    unfold imageSizeOf
    by_cases hq : isHighQuality options
    · rw [if_pos hq]
      rcases hq with h | h <;> rw [h] <;> simp [isHighQuality, h]
    · rw [if_neg hq]
      simpa [isHighQuality] using hq
  refine ⟨hc1, ?_, ?_, ?_, ?_, ?_⟩
  · have h := generateImageFromText_ok prompt options generateContent r d hok hd
    rw [hc1] at h
    simpa using h
  · have h := generateImageFromImage_ok refs prompt options generateContent r d hok hd
    rw [hc1] at h
    simpa using h
  · simpa [buildTextRequest] using hsize
  · simpa [buildImageRequest] using hsize
  · intro ha
    constructor <;> simp [buildTextRequest, buildImageRequest, aspectRatioOf, ha]

/-- Options with 1K resolution and neither count nor aspect ratio, for
witnesses. -/
def lowResOptions : ImageGenerationOptions :=
  { aspectRatio := none, resolution := some "1K", numberOfImages := none }

/-- A concrete run of claim C10's theorem: with no `numberOfImages` and no
`aspectRatio`, one successful call yields a one-element list, there is no
`imageSize`, and the aspect ratio defaults. -/
theorem default_count_and_config_witness :
    generateImageFromText "p" (some lowResOptions)
      (fun _ _ => Except.ok okStubResponse) =
      Except.ok ["data:image/png;base64,AAA"] ∧
    (buildTextRequest "p" (some lowResOptions)).imageConfig.imageSize.isSome = false ∧
    (buildTextRequest "p" (some lowResOptions)).imageConfig.aspectRatio = "1:1" := by
  have h := default_count_and_config "p" [] (some lowResOptions)
    (fun _ _ => Except.ok okStubResponse) (fun _ => okStubResponse) (fun _ => "AAA")
    (fun _ _ => rfl) (fun _ => rfl) (Or.inl rfl)
  refine ⟨h.2.1, ?_, (h.2.2.2.2.2 rfl).1⟩
  have hs := h.2.2.2.1
  rw [Bool.eq_false_iff]
  intro htrue
  have := hs.mp (by simp [htrue])
  rcases this with h2 | h2 <;> exact absurd h2 (by decide)

/-- Counterexample to claim C3 as stated: the reference image
`data:image/gif;base64,XYZ` carries a data-URI encoding prefix, but the
line-148 regex only strips the png/jpeg/jpg/webp alternatives, so the
attached binary part's data is the full, unstripped data URI (not the
payload "XYZ") — while the mime regex still recovers "image/gif". -/
theorem reference_prefix_strip_cex :
    (buildImageRequest ["data:image/gif;base64,XYZ"] "p" none).parts[0]? =
      some { text := none,
             inlineData := some { data := "data:image/gif;base64,XYZ",
                                  mimeType := "image/gif" } } ∧
    ("data:image/gif;base64,XYZ" : String) ≠ "XYZ" := by
  exact ⟨by decide, by decide⟩

/-- Claim C3 (amended): for every list of reference images supplied to
`generateImageFromImage`, the request parts contain one binary part per
reference image, in the supplied order, all preceding the single text
part; each binary part's data is the input with its data-URI encoding
prefix stripped when that prefix is one of the four recognised heads
`data:image/(png|jpeg|jpg|webp);base64,`, and the unmodified input
otherwise; and each part's mimeType is the mime recovered from that same
data URI. -/
theorem reference_parts_strip_when_recognised
    (refs : List String) (prompt : String) (options : Option ImageGenerationOptions) :
    (buildImageRequest refs prompt options).parts.length = refs.length + 1 ∧
    (∀ (i : Nat) (img : String), refs[i]? = some img →
      (buildImageRequest refs prompt options).parts[i]? =
        some { text := none,
               inlineData := some { data := cleanBase64 img,
                                    mimeType := extractMime img } }) ∧
    (∀ (img p : String), p ∈ dataUriHeads → p.toList.isPrefixOf img.toList = true →
      p ++ cleanBase64 img = img) ∧
    (∀ img : String, (∀ p ∈ dataUriHeads, p.toList.isPrefixOf img.toList = false) →
      cleanBase64 img = img) ∧
    (buildImageRequest refs prompt options).parts[refs.length]? =
      some { text := some (refinedPromptOf prompt), inlineData := none } := by
  refine ⟨by simp [buildImageRequest], ?_, ?_, ?_, ?_⟩
  · intro i img h
    rcases List.getElem?_eq_some.mp h with ⟨hi, heq⟩
    simp [buildImageRequest, referencePart, List.getElem?_append, hi, heq]
  · intro img p hp hpre
    unfold cleanBase64
    cases hfind : dataUriHeads.find? (fun h => h.toList.isPrefixOf img.toList) with
    | none =>
      exact absurd hpre (by simpa using List.find?_eq_none.mp hfind p hp)
    | some q =>
      have hqmem : q ∈ dataUriHeads := List.mem_of_find?_eq_some hfind
      have hqpre : q.toList.isPrefixOf img.toList = true := by
        have hq2 := List.find?_some hfind
        simpa using hq2
      have hpq : p = q := dataUriHeads_unique p q img hp hqmem hpre hqpre
      subst hpq
      exact string_prefix_strip p img hpre
  · intro img hall
    unfold cleanBase64
    rw [List.find?_eq_none.mpr (fun p hp => by
      have hf := hall p hp
      simp only [hf]
      exact Bool.false_ne_true)]
  · simp [buildImageRequest, List.getElem?_append]

/-- A concrete run of claim C3's amended theorem: one recognised head is
stripped, the gif head is not, and the parts keep their order and count. -/
theorem reference_parts_strip_when_recognised_witness :
    (buildImageRequest ["data:image/png;base64,AAA", "data:image/gif;base64,XYZ"]
      "p" none).parts.length = 3 ∧
    "data:image/png;base64," ++ cleanBase64 "data:image/png;base64,AAA" =
      "data:image/png;base64,AAA" ∧
    cleanBase64 "data:image/gif;base64,XYZ" = "data:image/gif;base64,XYZ" := by
  have h := reference_parts_strip_when_recognised
    ["data:image/png;base64,AAA", "data:image/gif;base64,XYZ"] "p" none
  refine ⟨h.1, ?_, ?_⟩
  · exact h.2.2.1 "data:image/png;base64,AAA" "data:image/png;base64,"
      (by decide) (by decide)
  · exact h.2.2.2.1 "data:image/gif;base64,XYZ" (by decide)

/-- A done operation ends the poll loop at once, with no further
re-fetch. -/
theorem pollOperation_done (getVideosOperation : Nat → Except String VideoOperation)
    (fuel i : Nat) (op : VideoOperation) (h : op.done = true) :
    pollOperation getVideosOperation fuel i op = (Except.ok op, i) := by
  cases fuel <;> simp [pollOperation, h]

/-- A not-done operation costs one delayed re-fetch and continues with the
re-fetched operation. -/
theorem pollOperation_step (getVideosOperation : Nat → Except String VideoOperation)
    (f i : Nat) (op next : VideoOperation) (h : op.done = false)
    (hg : getVideosOperation i = Except.ok next) :
    pollOperation getVideosOperation (f + 1) i op =
      pollOperation getVideosOperation f (i + 1) next := by
  simp [pollOperation, h, hg]

/-- Claim C5: if the operation reports done=false on submission and on the
first delayed status re-fetch, and done=true with a valid download locator
on the second re-fetch, then `generateVideo` performs exactly two delayed
status re-fetches before proceeding, and the one binary download fetch it
issues targets the locator returned in the completed operation's payload
(with the access credential appended, line 237). -/
theorem video_poller_two_refetches_then_download
    (apiKey prompt : String) (inputImage : Option String)
    (generateVideos : VideoPayload → Except String VideoOperation)
    (getVideosOperation : Nat → Except String VideoOperation)
    (fetchUrl : String → Except String DownloadResponse)
    (fuel : Nat) (op0 op1 op2 : VideoOperation) (u : String)
    (hsub : generateVideos (buildVideoPayload prompt inputImage) = Except.ok op0)
    (h0 : op0.done = false)
    (hg0 : getVideosOperation 0 = Except.ok op1)
    (h1 : op1.done = false)
    (hg1 : getVideosOperation 1 = Except.ok op2)
    (h2 : op2.done = true)
    (hu : operationUri op2 = some u)
    (hne : u ≠ "")
    (hfuel : 2 ≤ fuel) :
    (generateVideo apiKey prompt inputImage generateVideos getVideosOperation
      fetchUrl fuel).statusFetches = 2 ∧
    (generateVideo apiKey prompt inputImage generateVideos getVideosOperation
      fetchUrl fuel).downloadFetches = [u ++ "&key=" ++ apiKey] := by
  obtain ⟨f, rfl⟩ : ∃ f, fuel = f + 2 := ⟨fuel - 2, by omega⟩
  have hpoll : pollOperation getVideosOperation (f + 2) 0 op0 = (Except.ok op2, 2) := by
    have e1 : pollOperation getVideosOperation (f + 2) 0 op0 =
        pollOperation getVideosOperation (f + 1) 1 op1 :=
      pollOperation_step getVideosOperation (f + 1) 0 op0 op1 h0 hg0
    have e2 : pollOperation getVideosOperation (f + 1) 1 op1 =
        pollOperation getVideosOperation f 2 op2 :=
      pollOperation_step getVideosOperation f 1 op1 op2 h1 hg1
    rw [e1, e2, pollOperation_done getVideosOperation f 2 op2 h2]
  unfold generateVideo
  simp only [hsub, hpoll, hu]
  rw [if_neg hne]
  cases hf : fetchUrl (u ++ "&key=" ++ apiKey) with
  | error e => exact ⟨rfl, rfl⟩
  | ok videoResponse =>
    cases hok : videoResponse.ok <;> simp [hok]

/-- A done stub operation with a valid locator, for witnesses. -/
def doneStubOperation : VideoOperation :=
  { done := true,
    response := some { generatedVideos := [{ video := some { uri := some "http://v" } }] } }

/-- A concrete run of claim C5's theorem, with a stub that is pending at
submission and at the first re-fetch and done with a locator at the
second. -/
theorem video_poller_two_refetches_then_download_witness :
    (generateVideo "KEY" "p" none
      (fun _ => Except.ok { done := false })
      (fun i => if i = 0 then Except.ok { done := false }
                else Except.ok doneStubOperation)
      (fun _ => Except.ok { ok := true, blob := "B" })
      5).statusFetches = 2 ∧
    (generateVideo "KEY" "p" none
      (fun _ => Except.ok { done := false })
      (fun i => if i = 0 then Except.ok { done := false }
                else Except.ok doneStubOperation)
      (fun _ => Except.ok { ok := true, blob := "B" })
      5).downloadFetches = ["http://v&key=KEY"] := by
  exact video_poller_two_refetches_then_download "KEY" "p" none
    (fun _ => Except.ok { done := false })
    (fun i => if i = 0 then Except.ok { done := false }
              else Except.ok doneStubOperation)
    (fun _ => Except.ok { ok := true, blob := "B" })
    5 { done := false } { done := false } doneStubOperation "http://v"
    rfl rfl rfl rfl rfl rfl rfl (by decide) (by omega)

/-- Claim C6: if the operation reports done=true but its result payload
contains no (truthy) download locator, `generateVideo` fails with the
error "Video generation failed or no URI returned." and performs no
download fetch (and no status re-fetch was needed). -/
theorem video_no_uri_fails_without_download
    (apiKey prompt : String) (inputImage : Option String)
    (generateVideos : VideoPayload → Except String VideoOperation)
    (getVideosOperation : Nat → Except String VideoOperation)
    (fetchUrl : String → Except String DownloadResponse)
    (fuel : Nat) (op0 : VideoOperation)
    (hsub : generateVideos (buildVideoPayload prompt inputImage) = Except.ok op0)
    (hdone : op0.done = true)
    (hu : operationUri op0 = none ∨ operationUri op0 = some "") :
    (generateVideo apiKey prompt inputImage generateVideos getVideosOperation
      fetchUrl fuel).result =
      Except.error "Video generation failed or no URI returned." ∧
    (generateVideo apiKey prompt inputImage generateVideos getVideosOperation
      fetchUrl fuel).downloadFetches = [] ∧
    (generateVideo apiKey prompt inputImage generateVideos getVideosOperation
      fetchUrl fuel).statusFetches = 0 := by
  unfold generateVideo
  simp only [hsub, pollOperation_done getVideosOperation fuel 0 op0 hdone]
  rcases hu with h | h <;> simp [h]

/-- A concrete run of claim C6's theorem: an immediately done operation
with an empty result payload fails without a download fetch. -/
theorem video_no_uri_fails_without_download_witness :
    (generateVideo "KEY" "p" none
      (fun _ => Except.ok { done := true, response := some { generatedVideos := [] } })
      (fun _ => Except.error "unused")
      (fun _ => Except.ok { ok := true, blob := "B" })
      3).result =
      Except.error "Video generation failed or no URI returned." ∧
    (generateVideo "KEY" "p" none
      (fun _ => Except.ok { done := true, response := some { generatedVideos := [] } })
      (fun _ => Except.error "unused")
      (fun _ => Except.ok { ok := true, blob := "B" })
      3).downloadFetches = [] := by
  have h := video_no_uri_fails_without_download "KEY" "p" none
    (fun _ => Except.ok { done := true, response := some { generatedVideos := [] } })
    (fun _ => Except.error "unused")
    (fun _ => Except.ok { ok := true, blob := "B" })
    3 { done := true, response := some { generatedVideos := [] } }
    rfl rfl (Or.inl rfl)
  exact ⟨h.1, h.2.1⟩

/-- Claim C8: if the pre-dispatch gate check fails (video mode or 2K/4K
resolution while the paid-key flag is false), the generation attempt
aborts before any service call is dispatched, no error message is set, and
the in-flight flag is cleared. -/
theorem gate_failure_blocks_dispatch (svc : GenServices) (s : GenState)
    (hp : s.prompt ≠ "")
    (hneed : s.activeTab = GenerationType.TEXT_TO_VIDEO ∨ s.resolution = "2K" ∨
      s.resolution = "4K")
    (hkey : s.hasPaidKey = false) :
    (handleGenerate svc s).2 = false ∧
    (handleGenerate svc s).1.error = none ∧
    (handleGenerate svc s).1.isGenerating = false := by
  unfold handleGenerate
  rw [if_neg hp, if_pos ⟨hneed, hkey⟩]
  exact ⟨rfl, rfl, rfl⟩

/-- A stub component state for controller witnesses: nonempty prompt, video
mode, no paid key. -/
def gateBlockedState : GenState :=
  { prompt := "p", isGenerating := false, resultUrls := [], selectedPreviewIndex := 0,
    error := none, aspectRatio := "16:9", resolution := "1K", numberOfImages := 1,
    referenceImages := [], hasPaidKey := false, activeTab := GenerationType.TEXT_TO_VIDEO }

/-- Stub services whose every call throws the given message. -/
def throwingServices (m : String) : GenServices :=
  { textToImage := fun _ _ => Except.error m,
    imageToImage := fun _ _ _ => Except.error m,
    textToVideo := fun _ _ => Except.error m }

/-- A concrete run of claim C8's theorem: the gate-blocked video attempt
dispatches nothing and surfaces no error. -/
theorem gate_failure_blocks_dispatch_witness :
    (handleGenerate (throwingServices "boom") gateBlockedState).2 = false ∧
    (handleGenerate (throwingServices "boom") gateBlockedState).1.error = none := by
  have h := gate_failure_blocks_dispatch (throwingServices "boom") gateBlockedState
    (by decide) (Or.inl rfl) rfl
  exact ⟨h.1, h.2.1⟩

/-- Counterexample to claim C4 as stated: the thrown message
"entity was not found" does contain the claimed substring
"entity was not found", yet the handler leaves the paid-key flag `true` —
the code only matches the longer signature
"Requested entity was not found" (line 148). -/
theorem entitlement_substring_cex :
    containsSubstr "entity was not found" "entity was not found" = true ∧
    (handleGenerate (throwingServices "entity was not found")
      { gateBlockedState with activeTab := GenerationType.TEXT_TO_IMAGE,
                              hasPaidKey := true }).1.hasPaidKey = true ∧
    (handleGenerate (throwingServices "entity was not found")
      { gateBlockedState with activeTab := GenerationType.TEXT_TO_IMAGE,
                              hasPaidKey := true }).1.error =
      some "entity was not found" := by
  refine ⟨by decide, rfl, rfl⟩

/-- Claim C4 (amended): in the generation handler, a thrown error whose
message contains the substring "Requested entity was not found" downgrades
the paid-key flag to false, any other thrown message leaves the flag
unchanged, and the displayed error is the message (with the generic
"Generation failed" fallback when the message is empty). -/
theorem entitlement_downgrade_on_requested_entity
    (svc : GenServices) (s : GenState) (m : String) (called : Bool)
    (hp : s.prompt ≠ "")
    (hgate : ¬((s.activeTab = GenerationType.TEXT_TO_VIDEO ∨ s.resolution = "2K" ∨
      s.resolution = "4K") ∧ s.hasPaidKey = false))
    (htry : tryGenerate svc s = (Except.error m, called)) :
    (containsSubstr m "Requested entity was not found" = true →
      (handleGenerate svc s).1.hasPaidKey = false) ∧
    (containsSubstr m "Requested entity was not found" = false →
      (handleGenerate svc s).1.hasPaidKey = s.hasPaidKey) ∧
    (handleGenerate svc s).1.error = some (if m = "" then "Generation failed" else m) := by
  unfold handleGenerate
  rw [if_neg hp, if_neg hgate]
  simp only [htry]
  refine ⟨?_, ?_, by trivial⟩
  · intro hc
    have hm : m ≠ "" := by
      intro he
      rw [he] at hc
      exact absurd hc (by decide)
    simp [hm, hc]
  · intro hc
    simp [hc]

/-- A concrete run of claim C4's amended theorem: the full signature
downgrades the flag and surfaces the message. -/
theorem entitlement_downgrade_on_requested_entity_witness :
    (handleGenerate (throwingServices "Requested entity was not found")
      { gateBlockedState with activeTab := GenerationType.TEXT_TO_IMAGE,
                              hasPaidKey := true }).1.hasPaidKey = false ∧
    (handleGenerate (throwingServices "Requested entity was not found")
      { gateBlockedState with activeTab := GenerationType.TEXT_TO_IMAGE,
                              hasPaidKey := true }).1.error =
      some "Requested entity was not found" := by
  have h := entitlement_downgrade_on_requested_entity
    (throwingServices "Requested entity was not found")
    { gateBlockedState with activeTab := GenerationType.TEXT_TO_IMAGE,
                            hasPaidKey := true }
    "Requested entity was not found" true
    (by decide) (by simp [gateBlockedState]) rfl
  refine ⟨h.1 (by decide), ?_⟩
  have he := h.2.2
  rw [if_neg (by decide)] at he
  exact he

/-- Counterexample to claim C9 as stated: a completed call whose response
text is the whitespace string " " (text present, so the claim demands the
trimmed text "") makes `enhancePrompt` return the original prompt "p"
instead — line 67's `|| originalPrompt` also fires when the trim is
empty. -/
theorem enhance_whitespace_cex :
    enhancePrompt "p" PromptKind.image
      (fun _ => Except.ok { candidates := [], text := some " " }) = Except.ok "p" ∧
    trimString " " = "" ∧
    ("p" : String) ≠ trimString " " := by
  refine ⟨rfl, by decide, by decide⟩

/-- Claim C9 (amended): for every prompt and mode, if the text-generation
call completes without throwing, `enhancePrompt` returns the response text
trimmed when that trim is nonempty, and returns the original prompt
verbatim when the response carries no text or the text trims to the empty
string; it never throws for an empty response, and a transport/API failure
propagates unmodified to the caller. -/
theorem enhance_trim_or_fallback (originalPrompt : String) (type : PromptKind)
    (generateContent : TextGenRequest → Except String GenResponse) :
    (∀ r t, generateContent (enhanceRequest originalPrompt type) = Except.ok r →
      r.text = some t → trimString t ≠ "" →
      enhancePrompt originalPrompt type generateContent = Except.ok (trimString t)) ∧
    (∀ r t, generateContent (enhanceRequest originalPrompt type) = Except.ok r →
      r.text = some t → trimString t = "" →
      enhancePrompt originalPrompt type generateContent = Except.ok originalPrompt) ∧
    (∀ r, generateContent (enhanceRequest originalPrompt type) = Except.ok r →
      r.text = none →
      enhancePrompt originalPrompt type generateContent = Except.ok originalPrompt) ∧
    (∀ e, generateContent (enhanceRequest originalPrompt type) = Except.error e →
      enhancePrompt originalPrompt type generateContent = Except.error e) := by
  refine ⟨?_, ?_, ?_, ?_⟩
  · intro r t hok ht htrim
    unfold enhancePrompt
    simp only [hok, ht]
    rw [if_neg htrim]
  · intro r t hok ht htrim
    unfold enhancePrompt
    simp only [hok, ht]
    rw [if_pos htrim]
  · intro r hok ht
    unfold enhancePrompt
    simp only [hok, ht]
  · intro e herr
    unfold enhancePrompt
    simp only [herr]

/-- A concrete run of claim C9's amended theorem: a padded text is trimmed,
an absent text falls back, an error propagates. -/
theorem enhance_trim_or_fallback_witness :
    enhancePrompt "p" PromptKind.image
      (fun _ => Except.ok { candidates := [], text := some " hello " }) =
      Except.ok "hello" ∧
    enhancePrompt "p" PromptKind.video
      (fun _ => Except.ok { candidates := [], text := none }) = Except.ok "p" ∧
    enhancePrompt "p" PromptKind.image
      (fun _ => Except.error "boom") = Except.error "boom" := by
  refine ⟨?_, ?_, ?_⟩
  · have h := (enhance_trim_or_fallback "p" PromptKind.image
      (fun _ => Except.ok { candidates := [], text := some " hello " })).1
      { candidates := [], text := some " hello " } " hello " rfl rfl (by decide)
    rw [h]
    rfl
  · exact (enhance_trim_or_fallback "p" PromptKind.video
      (fun _ => Except.ok { candidates := [], text := none })).2.2.1
      { candidates := [], text := none } rfl rfl
  · exact (enhance_trim_or_fallback "p" PromptKind.image
      (fun _ => Except.error "boom")).2.2.2 "boom" rfl

end AVGJ
